import Mathlib

/-!
Verification of the byte-relay core of `loadbalancer-rs`
(`src/connection.rs`), shallowly embedded in Lean 4.

Modelling decisions:
* `Ready` (mio's readiness bitset, together with the unix `error`/`hup`
  bits accessed through `UnixReady::from`) is a record of four booleans.
* Socket I/O is external: `EndPoint.absorb` takes a `ReadResult` oracle
  (what `stream.read` would return: the bytes read, `WouldBlock`, or
  another error) and `EndPoint.pipe_to_peer` takes a `WriteResult`
  oracle (how many bytes `dest.write` accepted, `WouldBlock`, or error).
  The OS read/write contracts (a read fills at most the free tail of the
  buffer, a write accepts at most the slice it was given) appear as
  explicit hypotheses where needed.
* The fixed 4096-byte buffer is a `List Nat`; `buffer_index` is the
  high-water cursor (`used_len` in the spec).  `ptr::copy` of `left`
  bytes from offset `n_written` down to offset 0 becomes
  `(buffer.drop n).take left ++ buffer.drop left` (positions `< left`
  get the shifted bytes, positions `≥ left` keep their old values).
* `peer_stream : Bool` records whether a peer write handle is installed
  (`Option<TcpStream>` carries no data our claims depend on);
  `set_peer_stream` takes the success of `try_clone` as a boolean.
* `Token` is a `Nat` reduced modulo `2^64` (usize on the reference
  platform); `<< 2` becomes `(· * 4) % 2^64`, `& 3` becomes `% 4`,
  `>> 2` becomes `/ 4`.  `from_raw_token` returns an `Option` whose
  `none` models the `unreachable!()` trap.
-/

namespace LoadBalancer

/-- The word size of the reference platform: tokens are `usize`. -/
def USIZE : Nat := 2 ^ 64

/-- mio `Ready` bitset plus the `UnixReady` bits `error` and `hup`. -/
structure Ready where
  readable : Bool
  writable : Bool
  error : Bool
  hup : Bool
deriving DecidableEq, Repr

/-- `Ready::empty()`. -/
def Ready.empty : Ready :=
  ⟨false, false, false, false⟩

/-- `Ready::readable()`. -/
def Ready.readableOnly : Ready :=
  ⟨true, false, false, false⟩

/-- `Ready::writable()`. -/
def Ready.writableOnly : Ready :=
  ⟨false, true, false, false⟩

/-- `Ready::insert`: bitwise OR of two readiness sets. -/
def Ready.insert (a b : Ready) : Ready :=
  ⟨a.readable || b.readable, a.writable || b.writable,
   a.error || b.error, a.hup || b.hup⟩

/-- `Ready::remove`: clear the bits of `b` in `a`. -/
def Ready.remove (a b : Ready) : Ready :=
  ⟨a.readable && !b.readable, a.writable && !b.writable,
   a.error && !b.error, a.hup && !b.hup⟩

/-- Outcome of a non-blocking `stream.read` into the free tail of the
buffer: bytes read, `ErrorKind::WouldBlock`, or any other I/O error. -/
inductive ReadResult where
  | ok (data : List Nat)
  | wouldBlock
  | ioError
deriving DecidableEq, Repr

/-- Outcome of a non-blocking `dest.write` of the used prefix of the
buffer: number of bytes accepted, `ErrorKind::WouldBlock`, or any other
I/O error. -/
inductive WriteResult where
  | ok (n : Nat)
  | wouldBlock
  | ioError
deriving DecidableEq, Repr

/-- `EndPoint`: one socket side of a relayed connection.  The owned
`stream` handle itself is not modelled (all its behaviour enters through
the `ReadResult`/`WriteResult` oracles); `peer_stream` records whether
the duplicate write handle to the peer's socket is installed. -/
structure EndPoint where
  state : Ready
  buffer : List Nat
  buffer_index : Nat
  peer_stream : Bool
deriving DecidableEq, Repr

/-- `EndPoint::new`: empty readiness, zeroed 4096-byte buffer, cursor 0,
no peer handle. -/
def EndPoint.new : EndPoint :=
  { state := Ready.empty
    buffer := List.replicate 4096 0
    buffer_index := 0
    peer_stream := false }

/-- `EndPoint::set_peer_stream`: install a duplicate of the peer's
socket handle; `cloneOk` is whether `try_clone` succeeded.  On failure
nothing is installed. -/
def EndPoint.set_peer_stream (cloneOk : Bool) (ep : EndPoint) : EndPoint :=
  if cloneOk then { ep with peer_stream := true } else ep

/-- `EndPoint::absorb`: if the buffer is full (`buffer_index >= 4096`)
return 0 without reading.  Otherwise one non-blocking read into
`buffer[buffer_index..4096]`: on `Ok(n)` the `n` bytes land at the
cursor and the cursor advances; `WouldBlock` and any other error yield 0
with the endpoint unchanged.  Returns `(bytes_read, endpoint)`. -/
def EndPoint.absorb (r : ReadResult) (ep : EndPoint) : Nat × EndPoint :=
  if 4096 ≤ ep.buffer_index then
    (0, ep)
  else
    match r with
    | ReadResult.ok data =>
        (data.length,
         { ep with
             buffer := ep.buffer.take ep.buffer_index ++ data ++
                       ep.buffer.drop (ep.buffer_index + data.length)
             buffer_index := ep.buffer_index + data.length })
    | ReadResult.wouldBlock => (0, ep)
    | ReadResult.ioError => (0, ep)

/-- `EndPoint::pipe_to_peer`: no-op returning 0 when the buffer is empty
or no peer handle is installed.  Otherwise one non-blocking write of
`buffer[0..buffer_index]`: on `Ok(n)` the unwritten remainder
`buffer[n..buffer_index]` is shifted down to offset 0 (`ptr::copy`) and
the cursor becomes `buffer_index - n`; `WouldBlock` and any other error
yield 0 with the endpoint unchanged.  Returns `(bytes_written, endpoint)`. -/
def EndPoint.pipe_to_peer (w : WriteResult) (ep : EndPoint) : Nat × EndPoint :=
  if ep.buffer_index = 0 then
    (0, ep)
  else if ep.peer_stream then
    match w with
    | WriteResult.ok n =>
        let left := ep.buffer_index - n
        (n,
         { ep with
             buffer := (ep.buffer.drop n).take left ++ ep.buffer.drop left
             buffer_index := left })
    | WriteResult.wouldBlock => (0, ep)
    | WriteResult.ioError => (0, ep)
  else
    (0, ep)

/-- `Connection`: the Front (client-side) and Back (upstream-side)
endpoints plus the outgoing token used for external bookkeeping. -/
structure Connection where
  front : EndPoint
  back : EndPoint
  backend_token : Nat
deriving DecidableEq, Repr

/-- `Connection::new`: build Front and Back, then install each side's
peer write handle as a duplicate of the other side's stream.
`cloneBackOk` is whether duplicating Back's stream (for Front's peer
handle) succeeded, `cloneFrontOk` likewise for Back's peer handle. -/
def Connection.new (cloneBackOk cloneFrontOk : Bool) (outgoing_token : Nat) :
    Connection :=
  { front := EndPoint.set_peer_stream cloneBackOk EndPoint.new
    back := EndPoint.set_peer_stream cloneFrontOk EndPoint.new
    backend_token := outgoing_token }

/-- `Connection::incoming_ready`: OR the reported events into Front's
readiness. -/
def Connection.incoming_ready (events : Ready) (c : Connection) : Connection :=
  { c with front := { c.front with state := c.front.state.insert events } }

/-- `Connection::outgoing_ready`: OR the reported events into Back's
readiness. -/
def Connection.outgoing_ready (events : Ready) (c : Connection) : Connection :=
  { c with back := { c.back with state := c.back.state.insert events } }

/-- `Connection::is_outgoing_closed`: Back's readiness includes `error`
or `hup`. -/
def Connection.is_outgoing_closed (c : Connection) : Bool :=
  c.back.state.error || c.back.state.hup

/-- `Connection::is_incoming_closed`: Front's readiness includes `error`
or `hup`. -/
def Connection.is_incoming_closed (c : Connection) : Bool :=
  c.front.state.error || c.front.state.hup

/-- First half of the closure mapped over both endpoints in
`Connection::tick`: if the endpoint's readiness includes `readable`,
`absorb` once and clear the `readable` flag. -/
def EndPoint.tickStage1 (r : ReadResult) (ep : EndPoint) : EndPoint :=
  if ep.state.readable then
    let a := EndPoint.absorb r ep
    { a.2 with state := a.2.state.remove Ready.readableOnly }
  else ep

/-- The closure mapped over both endpoints in the first pass of
`Connection::tick`: the readable half (`tickStage1`), then, if the
readiness includes `writable`, clear the `writable` flag and report
`true` (the endpoint's entry for the `need_pipe` vector). -/
def EndPoint.tickMark (r : ReadResult) (ep : EndPoint) : Bool × EndPoint :=
  let ep1 := EndPoint.tickStage1 r ep
  if ep1.state.writable then
    (true, { ep1 with state := ep1.state.remove Ready.writableOnly })
  else
    (false, ep1)

/-- `Connection::tick`.  The first pass maps `tickMark` over
`[front, back]` and collects the marks through `.rev()`, so in the Rust
source the iterator is consumed back-first and the collected vector is
`[back's mark, front's mark]`.  The drain loop then pairs
`need_pipe[0]` with Front and `need_pipe[1]` with Back: an endpoint is
drained when its PEER's writable flag was set.  Each drain's
"wrote more than 0 bytes" result is OR-ed into the returned flag. -/
def Connection.tick (rf rb : ReadResult) (wf wb : WriteResult)
    (c : Connection) : Bool × Connection :=
  let mb := EndPoint.tickMark rb c.back
  let mf := EndPoint.tickMark rf c.front
  let df := if mb.1 then EndPoint.pipe_to_peer wf mf.2 else (0, mf.2)
  let db := if mf.1 then EndPoint.pipe_to_peer wb mb.2 else (0, mb.2)
  (decide (0 < df.1) || decide (0 < db.1),
   { c with front := df.2, back := db.2 })

/-- The public operations on a single `EndPoint`, including the two flag
clears that `Connection::tick` performs on it.  Used to state invariants
over arbitrary operation sequences. -/
inductive EPOp where
  | opAbsorb (r : ReadResult)
  | opPipe (w : WriteResult)
  | opInsert (e : Ready)
  | opRemoveReadable
  | opRemoveWritable
  | opSetPeer (cloneOk : Bool)
deriving DecidableEq, Repr

/-- Apply one `EndPoint` operation (discarding the returned byte count). -/
def applyOp : EPOp → EndPoint → EndPoint
  | EPOp.opAbsorb r, ep => (EndPoint.absorb r ep).2
  | EPOp.opPipe w, ep => (EndPoint.pipe_to_peer w ep).2
  | EPOp.opInsert e, ep => { ep with state := ep.state.insert e }
  | EPOp.opRemoveReadable, ep =>
      { ep with state := ep.state.remove Ready.readableOnly }
  | EPOp.opRemoveWritable, ep =>
      { ep with state := ep.state.remove Ready.writableOnly }
  | EPOp.opSetPeer b, ep => EndPoint.set_peer_stream b ep

/-- Apply a sequence of `EndPoint` operations, first element first. -/
def applyOps : List EPOp → EndPoint → EndPoint
  | [], ep => ep
  | op :: rest, ep => applyOps rest (applyOp op ep)

/-- OS contract for an operation's oracle in the given state: a read
fills at most the free tail of the buffer (only relevant when the buffer
is not full, since a full buffer suppresses the read), and a write
accepts at most the bytes it was offered. -/
def validOp (ep : EndPoint) : EPOp → Bool
  | EPOp.opAbsorb (ReadResult.ok data) =>
      decide (4096 ≤ ep.buffer_index) ||
      decide (ep.buffer_index + data.length ≤ 4096)
  | EPOp.opPipe (WriteResult.ok n) => decide (n ≤ ep.buffer_index)
  | _ => true

/-- Every oracle along the trace satisfies the OS contract at the state
where it is consumed. -/
def validTrace : EndPoint → List EPOp → Bool
  | _, [] => true
  | ep, op :: rest => validOp ep op && validTrace (applyOp op ep) rest

/-- Discriminator: is this operation an `absorb`? -/
def EPOp.isAbsorb : EPOp → Bool
  | EPOp.opAbsorb _ => true
  | _ => false

/-- Discriminator: is this operation a `pipe_to_peer`? -/
def EPOp.isPipe : EPOp → Bool
  | EPOp.opPipe _ => true
  | _ => false

/-- Discriminator: is this operation a `set_peer_stream`? -/
def EPOp.isSetPeer : EPOp → Bool
  | EPOp.opSetPeer _ => true
  | _ => false

/-- Operations performed on an endpoint by readable-only activity:
absorbing, merging readiness, and the readable-flag clear.  No drain. -/
def EPOp.readSideOnly : EPOp → Bool
  | EPOp.opAbsorb _ => true
  | EPOp.opInsert _ => true
  | EPOp.opRemoveReadable => true
  | _ => false

/-- The public operations on a `Connection`: the two readiness merges
and `tick` (with its four I/O oracles). -/
inductive ConnOp where
  | opIncomingReady (e : Ready)
  | opOutgoingReady (e : Ready)
  | opTick (rf rb : ReadResult) (wf wb : WriteResult)
deriving DecidableEq, Repr

/-- Apply one `Connection` operation (discarding `tick`'s flag). -/
def applyConnOp : ConnOp → Connection → Connection
  | ConnOp.opIncomingReady e, c => Connection.incoming_ready e c
  | ConnOp.opOutgoingReady e, c => Connection.outgoing_ready e c
  | ConnOp.opTick rf rb wf wb, c => (Connection.tick rf rb wf wb c).2

/-- Apply a sequence of `Connection` operations, first element first. -/
def applyConnOps : List ConnOp → Connection → Connection
  | [], c => c
  | op :: rest, c => applyConnOps rest (applyConnOp op c)

/-- Second definition for the drain-selection comparison, following the
spec's amended wording: in the second pass each endpoint whose readiness
includes `writable` has the flag cleared and is recorded as a mark; the
drain pass then calls `pipe_to_peer` on the PEER of each marked
endpoint (the marked endpoint's socket is the one that became writable,
and the bytes destined for that socket sit in the peer's buffer),
OR-ing each "wrote more than 0 bytes" result into the returned flag. -/
def Connection.tickSpecPeerDrain (rf rb : ReadResult) (wf wb : WriteResult)
    (c : Connection) : Bool × Connection :=
  let f1 := EndPoint.tickStage1 rf c.front
  let b1 := EndPoint.tickStage1 rb c.back
  let frontMarked := f1.state.writable
  let backMarked := b1.state.writable
  let f2 :=
    if frontMarked then { f1 with state := f1.state.remove Ready.writableOnly }
    else f1
  let b2 :=
    if backMarked then { b1 with state := b1.state.remove Ready.writableOnly }
    else b1
  let df := if backMarked then EndPoint.pipe_to_peer wf f2 else (0, f2)
  let db := if frontMarked then EndPoint.pipe_to_peer wb b2 else (0, b2)
  (decide (0 < df.1) || decide (0 < db.1),
   { c with front := df.2, back := db.2 })

/-- `UnixReady::hup()`. -/
def Ready.hupOnly : Ready :=
  ⟨false, false, false, true⟩

/-- A concrete endpoint: 3 buffered bytes, peer handle installed. -/
def exampleEndPoint : EndPoint :=
  { state := Ready.empty
    buffer := List.replicate 4096 0
    buffer_index := 3
    peer_stream := true }

/-- A concrete endpoint whose buffer is full. -/
def exampleFullEndPoint : EndPoint :=
  { state := Ready.readableOnly
    buffer := List.replicate 4096 1
    buffer_index := 4096
    peer_stream := true }

/-- A concrete connection in which Back's readiness is writable-only and
Back holds 5 buffered bytes, while Front's buffer is empty. -/
def exampleBackWritable : Connection :=
  { front :=
      { state := Ready.empty
        buffer := List.replicate 4096 0
        buffer_index := 0
        peer_stream := true }
    back :=
      { state := Ready.writableOnly
        buffer := List.replicate 4096 9
        buffer_index := 5
        peer_stream := true }
    backend_token := 0 }

/-- A concrete connection poised for Scenario A: Front readable with an
empty buffer, Back writable. -/
def exampleRelayConn : Connection :=
  { front :=
      { state := Ready.readableOnly
        buffer := List.replicate 4096 0
        buffer_index := 0
        peer_stream := true }
    back :=
      { state := Ready.writableOnly
        buffer := List.replicate 4096 0
        buffer_index := 0
        peer_stream := true }
    backend_token := 2 }

/-- Twenty concrete bytes for the Scenario A witness. -/
def exampleData : List Nat :=
  List.replicate 20 65

/-- A freshly constructed concrete connection. -/
def exampleConn : Connection :=
  Connection.new true true 7

/-- A concrete endpoint with buffered bytes but no peer write handle. -/
def exampleNoPeer : EndPoint :=
  { state := Ready.empty
    buffer := List.replicate 4096 0
    buffer_index := 2
    peer_stream := false }

/-- A concrete mixed operation trace for the invariant witnesses. -/
def exampleOps : List EPOp :=
  [EPOp.opAbsorb (ReadResult.ok [1, 2]),
   EPOp.opPipe (WriteResult.ok 1),
   EPOp.opInsert Ready.hupOnly]

/-- A concrete read-side-only operation trace. -/
def exampleReadOps : List EPOp :=
  [EPOp.opInsert Ready.readableOnly,
   EPOp.opAbsorb (ReadResult.ok [7, 7]),
   EPOp.opRemoveReadable]

/-- A concrete connection-level operation trace: a merge on each side
followed by a tick. -/
def exampleConnOps : List ConnOp :=
  [ConnOp.opIncomingReady Ready.readableOnly,
   ConnOp.opOutgoingReady Ready.writableOnly,
   ConnOp.opTick ReadResult.wouldBlock ReadResult.wouldBlock
     WriteResult.wouldBlock WriteResult.wouldBlock]

/-- Token kinds: `TokenType` with its three index-carrying variants. -/
inductive TokenType where
  | Listener (i : Nat)
  | Incoming (i : Nat)
  | Outgoing (i : Nat)
deriving DecidableEq, Repr

/-- `ListenerToken::as_raw_token`: `Token(self.0 << 2)` in usize
arithmetic. -/
def ListenerToken.as_raw_token (i : Nat) : Nat :=
  (i * 4) % USIZE

/-- `IncomingToken::as_raw_token`: `Token((self.0 << 2) + 1)` in usize
arithmetic. -/
def IncomingToken.as_raw_token (i : Nat) : Nat :=
  ((i * 4) % USIZE + 1) % USIZE

/-- `OutgoingToken::as_raw_token`: `Token((self.0 << 2) + 2)` in usize
arithmetic. -/
def OutgoingToken.as_raw_token (i : Nat) : Nat :=
  ((i * 4) % USIZE + 2) % USIZE

/-- `TokenType::from_raw_token`: dispatch on the low two tag bits,
index is the high bits.  `none` models the `unreachable!()` trap taken
when the tag bits are `3`. -/
def TokenType.from_raw_token (t : Nat) : Option TokenType :=
  match t % 4 with
  | 0 => some (TokenType.Listener (t / 4))
  | 1 => some (TokenType.Incoming (t / 4))
  | 2 => some (TokenType.Outgoing (t / 4))
  | _ => none

/-! ## Basic facts about the endpoint operations -/

/-- `absorb` never changes the readiness state. -/
theorem absorb_state (r : ReadResult) (ep : EndPoint) :
    (EndPoint.absorb r ep).2.state = ep.state := by
  unfold EndPoint.absorb
  split
  · rfl
  · cases r <;> rfl

/-- `absorb` never changes the peer write handle. -/
theorem absorb_peer_stream (r : ReadResult) (ep : EndPoint) :
    (EndPoint.absorb r ep).2.peer_stream = ep.peer_stream := by
  unfold EndPoint.absorb
  split
  · rfl
  · cases r <;> rfl

/-- `absorb` never shrinks the cursor. -/
theorem absorb_index_mono (r : ReadResult) (ep : EndPoint) :
    ep.buffer_index ≤ (EndPoint.absorb r ep).2.buffer_index := by
  unfold EndPoint.absorb
  split
  · exact Nat.le_refl _
  · cases r with
    | ok data => exact Nat.le_add_right _ _
    | wouldBlock => exact Nat.le_refl _
    | ioError => exact Nat.le_refl _

/-- `pipe_to_peer` never changes the readiness state. -/
theorem pipe_state (w : WriteResult) (ep : EndPoint) :
    (EndPoint.pipe_to_peer w ep).2.state = ep.state := by
  unfold EndPoint.pipe_to_peer
  split
  · rfl
  · split
    · cases w <;> rfl
    · rfl

/-- `pipe_to_peer` never changes the peer write handle. -/
theorem pipe_peer_stream (w : WriteResult) (ep : EndPoint) :
    (EndPoint.pipe_to_peer w ep).2.peer_stream = ep.peer_stream := by
  unfold EndPoint.pipe_to_peer
  split
  · rfl
  · split
    · cases w <;> rfl
    · rfl

/-- `pipe_to_peer` never grows the cursor. -/
theorem pipe_index_mono (w : WriteResult) (ep : EndPoint) :
    (EndPoint.pipe_to_peer w ep).2.buffer_index ≤ ep.buffer_index := by
  unfold EndPoint.pipe_to_peer
  split
  · exact Nat.le_refl _
  · split
    · cases w with
      | ok n => exact Nat.sub_le _ _
      | wouldBlock => exact Nat.le_refl _
      | ioError => exact Nat.le_refl _
    · exact Nat.le_refl _

/-- A full-buffer `absorb` is the identity and returns 0. -/
theorem absorb_full (r : ReadResult) (ep : EndPoint)
    (h : ep.buffer_index = 4096) : EndPoint.absorb r ep = (0, ep) := by
  unfold EndPoint.absorb
  rw [if_pos (by omega)]

/-- Each operation preserves the `buffer_index ≤ 4096` bound provided
its oracle satisfies the OS contract. -/
theorem applyOp_index_le (op : EPOp) (ep : EndPoint)
    (hv : validOp ep op = true) (h : ep.buffer_index ≤ 4096) :
    (applyOp op ep).buffer_index ≤ 4096 := by
  cases op with
  | opAbsorb r =>
    show (EndPoint.absorb r ep).2.buffer_index ≤ 4096
    cases r with
    | ok data =>
      simp only [validOp, Bool.or_eq_true, decide_eq_true_eq] at hv
      unfold EndPoint.absorb
      split
      · exact h
      · rcases hv with hv | hv
        · omega
        · exact hv
    | wouldBlock =>
      unfold EndPoint.absorb
      split <;> exact h
    | ioError =>
      unfold EndPoint.absorb
      split <;> exact h
  | opPipe w =>
    show (EndPoint.pipe_to_peer w ep).2.buffer_index ≤ 4096
    exact Nat.le_trans (pipe_index_mono w ep) h
  | opInsert e => exact h
  | opRemoveReadable => exact h
  | opRemoveWritable => exact h
  | opSetPeer b =>
    show (EndPoint.set_peer_stream b ep).buffer_index ≤ 4096
    unfold EndPoint.set_peer_stream
    split <;> exact h

/-- The `buffer_index ≤ 4096` bound is preserved along any valid
operation trace. -/
theorem validTrace_index_le (ops : List EPOp) (ep : EndPoint)
    (hv : validTrace ep ops = true) (h : ep.buffer_index ≤ 4096) :
    (applyOps ops ep).buffer_index ≤ 4096 := by
  induction ops generalizing ep with
  | nil => exact h
  | cons op rest ih =>
    unfold validTrace at hv
    simp only [Bool.and_eq_true] at hv
    exact ih (applyOp op ep) hv.2 (applyOp_index_le op ep hv.1 h)

/-- Every operation other than `set_peer_stream` preserves the peer
write handle. -/
theorem applyOp_peer_stream (op : EPOp) (ep : EndPoint)
    (h : op.isSetPeer = false) :
    (applyOp op ep).peer_stream = ep.peer_stream := by
  cases op with
  | opAbsorb r => exact absorb_peer_stream r ep
  | opPipe w => exact pipe_peer_stream w ep
  | opInsert e => rfl
  | opRemoveReadable => rfl
  | opRemoveWritable => rfl
  | opSetPeer b => simp [EPOp.isSetPeer] at h

/-! ## Claim theorems -/

/-- C3: partial-write compaction.  For an endpoint with a non-empty
buffer and an installed peer handle, a write accepting `n ≤ used_len`
bytes makes `pipe_to_peer` return `n`, sets the cursor to
`used_len - n`, and leaves the unwritten remainder `B[n..used_len]` at
offset 0, in order; in particular a full write (`n = used_len`) resets
the cursor to 0. -/
theorem pipe_to_peer_compaction (ep : EndPoint) (n : Nat)
    (h0 : 0 < ep.buffer_index) (hp : ep.peer_stream = true)
    (hn : n ≤ ep.buffer_index) (hlen : ep.buffer_index ≤ ep.buffer.length) :
    (EndPoint.pipe_to_peer (WriteResult.ok n) ep).1 = n
    ∧ (EndPoint.pipe_to_peer (WriteResult.ok n) ep).2.buffer_index
        = ep.buffer_index - n
    ∧ ((EndPoint.pipe_to_peer (WriteResult.ok n) ep).2.buffer).take
        (ep.buffer_index - n)
      = (ep.buffer.take ep.buffer_index).drop n := by
  have hne : ¬ ep.buffer_index = 0 := by omega
  unfold EndPoint.pipe_to_peer
  rw [if_neg hne, if_pos hp]
  refine ⟨rfl, rfl, ?_⟩
  have hlen2 : ep.buffer_index - n ≤ ((ep.buffer.drop n).take
      (ep.buffer_index - n)).length := by
    simp only [List.length_take, List.length_drop]
    omega
  rw [List.take_append_of_le_length hlen2, List.take_take, List.drop_take]
  simp

/-- C5: backpressure guard.  A full-buffer `absorb` returns 0 without
touching the endpoint, for any read oracle and any buffer contents; and
along any valid trace of read-side-only operations the cursor stays
bounded by 4096, with `absorb` returning 0 whenever the buffer is
full. -/
theorem absorb_full_backpressure :
    (∀ (ep : EndPoint) (r : ReadResult), ep.buffer_index = 4096 →
      EndPoint.absorb r ep = (0, ep))
    ∧ (∀ (ep : EndPoint) (ops : List EPOp),
      (∀ op ∈ ops, op.readSideOnly = true) →
      validTrace ep ops = true →
      ep.buffer_index ≤ 4096 →
      (applyOps ops ep).buffer_index ≤ 4096
      ∧ ((applyOps ops ep).buffer_index = 4096 → ∀ r : ReadResult,
        EndPoint.absorb r (applyOps ops ep) = (0, applyOps ops ep))) := by
  refine ⟨fun ep r h => absorb_full r ep h, fun ep ops _ hv h => ?_⟩
  exact ⟨validTrace_index_le ops ep hv h,
    fun hfull r => absorb_full r (applyOps ops ep) hfull⟩

/-- C6: drain guard.  `pipe_to_peer` is the identity returning 0 when
the buffer is empty or no peer handle is installed; a failed
`try_clone` in `set_peer_stream` installs nothing; and no operation
other than `set_peer_stream` ever changes whether a handle is
installed, so an endpoint left without one keeps returning 0. -/
theorem pipe_to_peer_noop_guard :
    (∀ (ep : EndPoint) (w : WriteResult), ep.buffer_index = 0 →
      EndPoint.pipe_to_peer w ep = (0, ep))
    ∧ (∀ (ep : EndPoint) (w : WriteResult), ep.peer_stream = false →
      EndPoint.pipe_to_peer w ep = (0, ep))
    ∧ (∀ ep : EndPoint, EndPoint.set_peer_stream false ep = ep)
    ∧ (∀ (ep : EndPoint) (ops : List EPOp),
      (∀ op ∈ ops, op.isSetPeer = false) →
      (applyOps ops ep).peer_stream = ep.peer_stream) := by
  refine ⟨?_, ?_, ?_, ?_⟩
  · intro ep w h
    unfold EndPoint.pipe_to_peer
    rw [if_pos h]
  · intro ep w h
    unfold EndPoint.pipe_to_peer
    split
    · rfl
    · rw [h]
      simp
  · intro ep
    rfl
  · intro ep ops h
    induction ops generalizing ep with
    | nil => rfl
    | cons op rest ih =>
      have hop : op.isSetPeer = false := h op (List.mem_cons_self op rest)
      have hrest : ∀ o ∈ rest, o.isSetPeer = false :=
        fun o ho => h o (List.mem_cons_of_mem _ ho)
      calc (applyOps (op :: rest) ep).peer_stream
          = (applyOp op ep).peer_stream := ih (applyOp op ep) hrest
        _ = ep.peer_stream := applyOp_peer_stream op ep hop

/-- C7: error atomicity.  `absorb` and `pipe_to_peer` swallow both
`WouldBlock` and every other I/O error: the operation returns 0 and the
endpoint (buffer contents, cursor, readiness) is exactly unchanged.
Both functions are total, so no error ever propagates upward. -/
theorem absorb_pipe_swallow_errors (ep : EndPoint) :
    EndPoint.absorb ReadResult.wouldBlock ep = (0, ep)
    ∧ EndPoint.absorb ReadResult.ioError ep = (0, ep)
    ∧ EndPoint.pipe_to_peer WriteResult.wouldBlock ep = (0, ep)
    ∧ EndPoint.pipe_to_peer WriteResult.ioError ep = (0, ep) := by
  refine ⟨?_, ?_, ?_, ?_⟩
  · unfold EndPoint.absorb
    split <;> rfl
  · unfold EndPoint.absorb
    split <;> rfl
  · unfold EndPoint.pipe_to_peer
    split
    · rfl
    · split <;> rfl
  · unfold EndPoint.pipe_to_peer
    split
    · rfl
    · split <;> rfl

/-! ## Facts about the two passes of `tick` -/

/-- The readable pass never changes the `writable` flag. -/
theorem tickStage1_writable (r : ReadResult) (ep : EndPoint) :
    (EndPoint.tickStage1 r ep).state.writable = ep.state.writable := by
  unfold EndPoint.tickStage1
  split
  · simp [absorb_state, Ready.remove, Ready.readableOnly]
  · rfl

/-- The readable pass never changes the `error` flag. -/
theorem tickStage1_error (r : ReadResult) (ep : EndPoint) :
    (EndPoint.tickStage1 r ep).state.error = ep.state.error := by
  unfold EndPoint.tickStage1
  split
  · simp [absorb_state, Ready.remove, Ready.readableOnly]
  · rfl

/-- The readable pass never changes the `hup` flag. -/
theorem tickStage1_hup (r : ReadResult) (ep : EndPoint) :
    (EndPoint.tickStage1 r ep).state.hup = ep.state.hup := by
  unfold EndPoint.tickStage1
  split
  · simp [absorb_state, Ready.remove, Ready.readableOnly]
  · rfl

/-- The readable pass never changes the peer write handle. -/
theorem tickStage1_peer (r : ReadResult) (ep : EndPoint) :
    (EndPoint.tickStage1 r ep).peer_stream = ep.peer_stream := by
  unfold EndPoint.tickStage1
  split
  · simp [absorb_peer_stream]
  · rfl

/-- The `need_pipe` entry an endpoint contributes is exactly its
`writable` flag on entry to `tick`. -/
theorem tickMark_fst (r : ReadResult) (ep : EndPoint) :
    (EndPoint.tickMark r ep).1 = ep.state.writable := by
  rw [← tickStage1_writable r ep]
  unfold EndPoint.tickMark
  by_cases h : (EndPoint.tickStage1 r ep).state.writable = true <;> simp [h]

/-- After the marking pass the `writable` flag is always clear. -/
theorem tickMark_writable (r : ReadResult) (ep : EndPoint) :
    (EndPoint.tickMark r ep).2.state.writable = false := by
  unfold EndPoint.tickMark
  by_cases h : (EndPoint.tickStage1 r ep).state.writable = true <;>
    simp [h, Ready.remove, Ready.writableOnly]

/-- The marking pass never changes the `error` flag. -/
theorem tickMark_error (r : ReadResult) (ep : EndPoint) :
    (EndPoint.tickMark r ep).2.state.error = ep.state.error := by
  unfold EndPoint.tickMark
  by_cases h : (EndPoint.tickStage1 r ep).state.writable = true <;>
    simp [h, Ready.remove, Ready.writableOnly, tickStage1_error]

/-- The marking pass never changes the `hup` flag. -/
theorem tickMark_hup (r : ReadResult) (ep : EndPoint) :
    (EndPoint.tickMark r ep).2.state.hup = ep.state.hup := by
  unfold EndPoint.tickMark
  by_cases h : (EndPoint.tickStage1 r ep).state.writable = true <;>
    simp [h, Ready.remove, Ready.writableOnly, tickStage1_hup]

/-- The marking pass never changes the peer write handle. -/
theorem tickMark_peer (r : ReadResult) (ep : EndPoint) :
    (EndPoint.tickMark r ep).2.peer_stream = ep.peer_stream := by
  unfold EndPoint.tickMark
  by_cases h : (EndPoint.tickStage1 r ep).state.writable = true <;>
    simp [h, tickStage1_peer]

/-- The writable-flag clear leaves buffer and cursor alone. -/
theorem tickMark_buffer_index (r : ReadResult) (ep : EndPoint) :
    (EndPoint.tickMark r ep).2.buffer_index
      = (EndPoint.tickStage1 r ep).buffer_index := by
  unfold EndPoint.tickMark
  by_cases h : (EndPoint.tickStage1 r ep).state.writable = true <;> simp [h]

/-- The writable-flag clear leaves the buffer contents alone. -/
theorem tickMark_buffer (r : ReadResult) (ep : EndPoint) :
    (EndPoint.tickMark r ep).2.buffer = (EndPoint.tickStage1 r ep).buffer := by
  unfold EndPoint.tickMark
  by_cases h : (EndPoint.tickStage1 r ep).state.writable = true <;> simp [h]

/-- `tick`'s returned flag, written out: the front drain is gated on
Back's mark and the back drain on Front's mark. -/
theorem tick_fst_eq (rf rb : ReadResult) (wf wb : WriteResult)
    (c : Connection) :
    (Connection.tick rf rb wf wb c).1 =
      (decide (0 < (if (EndPoint.tickMark rb c.back).1
          then EndPoint.pipe_to_peer wf (EndPoint.tickMark rf c.front).2
          else (0, (EndPoint.tickMark rf c.front).2)).1)
      || decide (0 < (if (EndPoint.tickMark rf c.front).1
          then EndPoint.pipe_to_peer wb (EndPoint.tickMark rb c.back).2
          else (0, (EndPoint.tickMark rb c.back).2)).1)) :=
  rfl

/-- `tick`'s resulting Front endpoint, written out. -/
theorem tick_front_eq (rf rb : ReadResult) (wf wb : WriteResult)
    (c : Connection) :
    (Connection.tick rf rb wf wb c).2.front =
      (if (EndPoint.tickMark rb c.back).1
       then EndPoint.pipe_to_peer wf (EndPoint.tickMark rf c.front).2
       else (0, (EndPoint.tickMark rf c.front).2)).2 :=
  rfl

/-- `tick`'s resulting Back endpoint, written out. -/
theorem tick_back_eq (rf rb : ReadResult) (wf wb : WriteResult)
    (c : Connection) :
    (Connection.tick rf rb wf wb c).2.back =
      (if (EndPoint.tickMark rf c.front).1
       then EndPoint.pipe_to_peer wb (EndPoint.tickMark rb c.back).2
       else (0, (EndPoint.tickMark rb c.back).2)).2 :=
  rfl

/-- C4: buffer-cursor invariant.  A fresh endpoint starts at cursor 0;
along any operation sequence whose oracles satisfy the OS read/write
contracts, `0 ≤ buffer_index ≤ 4096` is preserved (the lower bound is
inherent to `Nat`, matching Rust's unsigned `usize`); every operation
other than `absorb` never grows the cursor, and every operation other
than `pipe_to_peer` never shrinks it. -/
theorem used_len_bounded_invariant :
    EndPoint.new.buffer_index = 0
    ∧ (∀ (ep : EndPoint) (ops : List EPOp), validTrace ep ops = true →
      ep.buffer_index ≤ 4096 → (applyOps ops ep).buffer_index ≤ 4096)
    ∧ (∀ (op : EPOp) (ep : EndPoint), op.isAbsorb = false →
      (applyOp op ep).buffer_index ≤ ep.buffer_index)
    ∧ (∀ (op : EPOp) (ep : EndPoint), op.isPipe = false →
      ep.buffer_index ≤ (applyOp op ep).buffer_index) := by
  refine ⟨rfl, fun ep ops hv h => validTrace_index_le ops ep hv h, ?_, ?_⟩
  · intro op ep h
    cases op with
    | opAbsorb r => simp [EPOp.isAbsorb] at h
    | opPipe w => exact pipe_index_mono w ep
    | opInsert e => exact Nat.le_refl _
    | opRemoveReadable => exact Nat.le_refl _
    | opRemoveWritable => exact Nat.le_refl _
    | opSetPeer b =>
      show (EndPoint.set_peer_stream b ep).buffer_index ≤ ep.buffer_index
      unfold EndPoint.set_peer_stream
      split <;> exact Nat.le_refl _
  · intro op ep h
    cases op with
    | opAbsorb r => exact absorb_index_mono r ep
    | opPipe w => simp [EPOp.isPipe] at h
    | opInsert e => exact Nat.le_refl _
    | opRemoveReadable => exact Nat.le_refl _
    | opRemoveWritable => exact Nat.le_refl _
    | opSetPeer b =>
      show ep.buffer_index ≤ (EndPoint.set_peer_stream b ep).buffer_index
      unfold EndPoint.set_peer_stream
      split <;> exact Nat.le_refl _

/-- Witness for C4 at a concrete endpoint and trace. -/
theorem used_len_bounded_invariant_witness :
    (validTrace exampleEndPoint exampleOps = true
     ∧ exampleEndPoint.buffer_index ≤ 4096
     ∧ (applyOps exampleOps exampleEndPoint).buffer_index ≤ 4096)
    ∧ ((EPOp.opPipe (WriteResult.ok 1)).isAbsorb = false
     ∧ (applyOp (EPOp.opPipe (WriteResult.ok 1))
          exampleEndPoint).buffer_index ≤ exampleEndPoint.buffer_index)
    ∧ ((EPOp.opInsert Ready.hupOnly).isPipe = false
     ∧ exampleEndPoint.buffer_index ≤
        (applyOp (EPOp.opInsert Ready.hupOnly) exampleEndPoint).buffer_index) :=
  ⟨⟨by decide, by decide,
    used_len_bounded_invariant.2.1 exampleEndPoint exampleOps
      (by decide) (by decide)⟩,
   ⟨rfl, used_len_bounded_invariant.2.2.1 (EPOp.opPipe (WriteResult.ok 1))
      exampleEndPoint rfl⟩,
   ⟨rfl, used_len_bounded_invariant.2.2.2 (EPOp.opInsert Ready.hupOnly)
      exampleEndPoint rfl⟩⟩

/-- Witness for C3 at a concrete endpoint (3 buffered bytes, write
accepts 2). -/
theorem pipe_to_peer_compaction_witness :
    (0 < exampleEndPoint.buffer_index
     ∧ exampleEndPoint.peer_stream = true
     ∧ 2 ≤ exampleEndPoint.buffer_index
     ∧ exampleEndPoint.buffer_index ≤ exampleEndPoint.buffer.length)
    ∧ ((EndPoint.pipe_to_peer (WriteResult.ok 2) exampleEndPoint).1 = 2
     ∧ (EndPoint.pipe_to_peer (WriteResult.ok 2)
          exampleEndPoint).2.buffer_index = exampleEndPoint.buffer_index - 2
     ∧ ((EndPoint.pipe_to_peer (WriteResult.ok 2)
          exampleEndPoint).2.buffer).take (exampleEndPoint.buffer_index - 2)
        = (exampleEndPoint.buffer.take exampleEndPoint.buffer_index).drop 2) :=
  ⟨⟨by decide, rfl, by decide, by simp only [exampleEndPoint, List.length_replicate]; omega⟩,
   pipe_to_peer_compaction exampleEndPoint 2 (by decide) rfl (by decide)
     (by simp only [exampleEndPoint, List.length_replicate]; omega)⟩

/-- Witness for C5 at a full endpoint and a concrete readable-only
trace. -/
theorem absorb_full_backpressure_witness :
    (exampleFullEndPoint.buffer_index = 4096
     ∧ EndPoint.absorb ReadResult.wouldBlock exampleFullEndPoint
        = (0, exampleFullEndPoint))
    ∧ ((∀ op ∈ exampleReadOps, op.readSideOnly = true)
     ∧ validTrace exampleEndPoint exampleReadOps = true
     ∧ exampleEndPoint.buffer_index ≤ 4096
     ∧ (applyOps exampleReadOps exampleEndPoint).buffer_index ≤ 4096) :=
  ⟨⟨rfl, absorb_full_backpressure.1 exampleFullEndPoint
      ReadResult.wouldBlock rfl⟩,
   ⟨by decide, by decide, by decide,
    (absorb_full_backpressure.2 exampleEndPoint exampleReadOps
      (by decide) (by decide) (by decide)).1⟩⟩

/-- Witness for C6 at concrete endpoints: empty buffer, missing peer
handle, failed clone, and a trace with no `set_peer_stream`. -/
theorem pipe_to_peer_noop_guard_witness :
    (exampleRelayConn.front.buffer_index = 0
     ∧ EndPoint.pipe_to_peer (WriteResult.ok 0) exampleRelayConn.front
        = (0, exampleRelayConn.front))
    ∧ (exampleNoPeer.peer_stream = false
     ∧ EndPoint.pipe_to_peer (WriteResult.ok 1) exampleNoPeer
        = (0, exampleNoPeer))
    ∧ EndPoint.set_peer_stream false exampleNoPeer = exampleNoPeer
    ∧ ((∀ op ∈ exampleOps, op.isSetPeer = false)
     ∧ (applyOps exampleOps exampleNoPeer).peer_stream
        = exampleNoPeer.peer_stream) :=
  ⟨⟨rfl, pipe_to_peer_noop_guard.1 exampleRelayConn.front
      (WriteResult.ok 0) rfl⟩,
   ⟨rfl, pipe_to_peer_noop_guard.2.1 exampleNoPeer (WriteResult.ok 1) rfl⟩,
   pipe_to_peer_noop_guard.2.2.1 exampleNoPeer,
   ⟨by decide, pipe_to_peer_noop_guard.2.2.2 exampleNoPeer exampleOps
      (by decide)⟩⟩

/-- C1: Scenario A, simple relay.  For any connection whose Front is
readable with an empty buffer and an installed peer handle, and whose
Back is writable, when the read delivers 20 bytes and Back's socket
accepts a full 20-byte write, a single `tick` absorbs the 20 bytes into
Front's buffer, then writes all 20 of them to Back's socket in the same
tick, Front's cursor returns to 0, and `tick` returns `true`. -/
theorem tick_simple_relay (c : Connection) (data : List Nat)
    (rb : ReadResult) (wb : WriteResult)
    (hr : c.front.state.readable = true)
    (hw : c.back.state.writable = true)
    (h0 : c.front.buffer_index = 0)
    (hp : c.front.peer_stream = true)
    (hd : data.length = 20) :
    (EndPoint.tickMark (ReadResult.ok data) c.front).2.buffer_index = 20
    ∧ (EndPoint.tickMark (ReadResult.ok data) c.front).2.buffer.take 20 = data
    ∧ (EndPoint.pipe_to_peer (WriteResult.ok 20)
        (EndPoint.tickMark (ReadResult.ok data) c.front).2).1 = 20
    ∧ (Connection.tick (ReadResult.ok data) rb (WriteResult.ok 20) wb
        c).2.front.buffer_index = 0
    ∧ (Connection.tick (ReadResult.ok data) rb (WriteResult.ok 20) wb c).1
        = true := by
  have habs : EndPoint.absorb (ReadResult.ok data) c.front =
      (20, { c.front with
              buffer := data ++ c.front.buffer.drop 20
              buffer_index := 20 }) := by
    unfold EndPoint.absorb
    rw [if_neg (by omega)]
    simp [h0, hd]
  have hs1 : EndPoint.tickStage1 (ReadResult.ok data) c.front =
      { c.front with
          buffer := data ++ c.front.buffer.drop 20
          buffer_index := 20
          state := c.front.state.remove Ready.readableOnly } := by
    unfold EndPoint.tickStage1
    rw [if_pos hr]
    simp only [habs]
  have hidx : (EndPoint.tickMark (ReadResult.ok data)
      c.front).2.buffer_index = 20 := by
    rw [tickMark_buffer_index, hs1]
  have hbuf : (EndPoint.tickMark (ReadResult.ok data)
      c.front).2.buffer.take 20 = data := by
    rw [tickMark_buffer, hs1]
    show (data ++ c.front.buffer.drop 20).take 20 = data
    conv_lhs => rw [← hd]
    exact List.take_left data _
  have hpeer : (EndPoint.tickMark (ReadResult.ok data)
      c.front).2.peer_stream = true := by
    rw [tickMark_peer]
    exact hp
  have hpipe1 : (EndPoint.pipe_to_peer (WriteResult.ok 20)
      (EndPoint.tickMark (ReadResult.ok data) c.front).2).1 = 20 := by
    unfold EndPoint.pipe_to_peer
    rw [if_neg (by omega), if_pos hpeer]
  have hpipe2 : (EndPoint.pipe_to_peer (WriteResult.ok 20)
      (EndPoint.tickMark (ReadResult.ok data) c.front).2).2.buffer_index
      = 0 := by
    unfold EndPoint.pipe_to_peer
    rw [if_neg (by omega), if_pos hpeer]
    simp [hidx]
  have hmb : (EndPoint.tickMark rb c.back).1 = true := by
    rw [tickMark_fst]
    exact hw
  refine ⟨hidx, hbuf, hpipe1, ?_, ?_⟩
  · rw [tick_front_eq, if_pos hmb]
    exact hpipe2
  · rw [tick_fst_eq, if_pos hmb, hpipe1]
    simp

/-- Witness for C1 at a concrete connection and 20 concrete bytes. -/
theorem tick_simple_relay_witness :
    (exampleRelayConn.front.state.readable = true
     ∧ exampleRelayConn.back.state.writable = true
     ∧ exampleRelayConn.front.buffer_index = 0
     ∧ exampleRelayConn.front.peer_stream = true
     ∧ exampleData.length = 20)
    ∧ ((EndPoint.tickMark (ReadResult.ok exampleData)
          exampleRelayConn.front).2.buffer_index = 20
     ∧ (EndPoint.tickMark (ReadResult.ok exampleData)
          exampleRelayConn.front).2.buffer.take 20 = exampleData
     ∧ (EndPoint.pipe_to_peer (WriteResult.ok 20)
          (EndPoint.tickMark (ReadResult.ok exampleData)
            exampleRelayConn.front).2).1 = 20
     ∧ (Connection.tick (ReadResult.ok exampleData) ReadResult.wouldBlock
          (WriteResult.ok 20) WriteResult.wouldBlock
          exampleRelayConn).2.front.buffer_index = 0
     ∧ (Connection.tick (ReadResult.ok exampleData) ReadResult.wouldBlock
          (WriteResult.ok 20) WriteResult.wouldBlock exampleRelayConn).1
        = true) :=
  ⟨⟨rfl, rfl, rfl, rfl, by simp [exampleData]⟩,
   tick_simple_relay exampleRelayConn exampleData ReadResult.wouldBlock
     WriteResult.wouldBlock rfl rfl rfl rfl (by simp [exampleData])⟩

/-- C2 counterexample.  In this concrete connection Back's readiness
includes `writable`, Back holds 5 buffered bytes, its peer handle is
installed, and the back-side write oracle would accept all 5 bytes; the
claim ("the drain pass calls `pipe_to_peer()` on exactly the Endpoints
whose own `writable` flag was set") therefore predicts that Back is
drained and `tick` returns `true`.  The code instead returns `false`
and leaves Back's 5 bytes in place: the `.rev()` in `tick` pairs each
endpoint's drain with its PEER's writable mark. -/
theorem tick_drain_selection_counterexample :
    exampleBackWritable.back.state.writable = true
    ∧ 0 < exampleBackWritable.back.buffer_index
    ∧ exampleBackWritable.back.peer_stream = true
    ∧ (Connection.tick ReadResult.wouldBlock ReadResult.wouldBlock
        (WriteResult.ok 0) (WriteResult.ok 5) exampleBackWritable).1 = false
    ∧ (Connection.tick ReadResult.wouldBlock ReadResult.wouldBlock
        (WriteResult.ok 0) (WriteResult.ok 5)
        exampleBackWritable).2.back.buffer_index = 5 :=
  ⟨rfl, by decide, rfl, by decide, by decide⟩

/-- C2 (amended): in `tick`, each endpoint whose readiness includes
`writable` has the flag cleared and produces a mark; the drain pass
calls `pipe_to_peer()` on exactly the PEERS of the marked endpoints
(Front drains when Back was marked and vice versa), OR-ing each "wrote
more than 0 bytes" result into the returned flag.  `tick` coincides
with the spec-worded `tickSpecPeerDrain` on every input. -/
theorem tick_eq_tickSpecPeerDrain (rf rb : ReadResult)
    (wf wb : WriteResult) (c : Connection) :
    Connection.tick rf rb wf wb c
      = Connection.tickSpecPeerDrain rf rb wf wb c := by
  by_cases h1 : (EndPoint.tickStage1 rf c.front).state.writable = true <;>
  by_cases h2 : (EndPoint.tickStage1 rb c.back).state.writable = true <;>
  simp [Connection.tick, Connection.tickSpecPeerDrain, EndPoint.tickMark,
    h1, h2]

/-- C8: token round trip.  For every kind and every index representable
in the 62 bits left above the 2 tag bits, decoding the encoded token
returns the same tagged pair. -/
theorem token_round_trip (i : Nat) (h : i < 2 ^ 62) :
    TokenType.from_raw_token (ListenerToken.as_raw_token i)
      = some (TokenType.Listener i)
    ∧ TokenType.from_raw_token (IncomingToken.as_raw_token i)
      = some (TokenType.Incoming i)
    ∧ TokenType.from_raw_token (OutgoingToken.as_raw_token i)
      = some (TokenType.Outgoing i) := by
  have e1 : (2 : Nat) ^ 64 = 4 * 2 ^ 62 := by norm_num
  unfold ListenerToken.as_raw_token IncomingToken.as_raw_token
    OutgoingToken.as_raw_token USIZE
  rw [Nat.mod_eq_of_lt (by omega)]
  rw [Nat.mod_eq_of_lt (show i * 4 + 1 < 2 ^ 64 by omega),
    Nat.mod_eq_of_lt (show i * 4 + 2 < 2 ^ 64 by omega)]
  refine ⟨?_, ?_, ?_⟩
  · have ht : i * 4 % 4 = 0 := by omega
    have hq : i * 4 / 4 = i := by omega
    unfold TokenType.from_raw_token
    rw [ht, hq]
  · have ht : (i * 4 + 1) % 4 = 1 := by omega
    have hq : (i * 4 + 1) / 4 = i := by omega
    unfold TokenType.from_raw_token
    rw [ht, hq]
  · have ht : (i * 4 + 2) % 4 = 2 := by omega
    have hq : (i * 4 + 2) / 4 = i := by omega
    unfold TokenType.from_raw_token
    rw [ht, hq]

/-- Witness for C8 at index 5. -/
theorem token_round_trip_witness :
    (5 : Nat) < 2 ^ 62
    ∧ (TokenType.from_raw_token (ListenerToken.as_raw_token 5)
        = some (TokenType.Listener 5)
      ∧ TokenType.from_raw_token (IncomingToken.as_raw_token 5)
        = some (TokenType.Incoming 5)
      ∧ TokenType.from_raw_token (OutgoingToken.as_raw_token 5)
        = some (TokenType.Outgoing 5)) :=
  ⟨by norm_num, token_round_trip 5 (by norm_num)⟩

/-- C9: decode totality and trap.  `from_raw_token` returns
`Listener(raw >> 2)`, `Incoming(raw >> 2)` or `Outgoing(raw >> 2)` when
the tag bits `raw & 3` are 0, 1 or 2, and traps (modelled as `none`)
exactly when they are 3; no encoder output ever carries tag bits 3, so
the trap is unreachable under correct use of the encoders. -/
theorem from_raw_token_total_and_trap :
    (∀ t : Nat, t % 4 = 0 →
      TokenType.from_raw_token t = some (TokenType.Listener (t / 4)))
    ∧ (∀ t : Nat, t % 4 = 1 →
      TokenType.from_raw_token t = some (TokenType.Incoming (t / 4)))
    ∧ (∀ t : Nat, t % 4 = 2 →
      TokenType.from_raw_token t = some (TokenType.Outgoing (t / 4)))
    ∧ (∀ t : Nat, TokenType.from_raw_token t = none ↔ t % 4 = 3)
    ∧ (∀ i : Nat, ListenerToken.as_raw_token i % 4 ≠ 3)
    ∧ (∀ i : Nat, IncomingToken.as_raw_token i % 4 ≠ 3)
    ∧ (∀ i : Nat, OutgoingToken.as_raw_token i % 4 ≠ 3) := by
  refine ⟨?_, ?_, ?_, ?_, ?_, ?_, ?_⟩
  · intro t h
    unfold TokenType.from_raw_token
    rw [h]
  · intro t h
    unfold TokenType.from_raw_token
    rw [h]
  · intro t h
    unfold TokenType.from_raw_token
    rw [h]
  · intro t
    constructor
    · intro h
      by_contra hne
      have h4 : t % 4 < 4 := Nat.mod_lt t (by norm_num)
      have h3 : t % 4 = 0 ∨ t % 4 = 1 ∨ t % 4 = 2 := by omega
      unfold TokenType.from_raw_token at h
      rcases h3 with h0 | h0 | h0 <;> rw [h0] at h <;>
        exact Option.noConfusion h
    · intro h
      unfold TokenType.from_raw_token
      rw [h]
  · intro i
    unfold ListenerToken.as_raw_token USIZE
    omega
  · intro i
    unfold IncomingToken.as_raw_token USIZE
    omega
  · intro i
    unfold OutgoingToken.as_raw_token USIZE
    omega

/-- Witness for C9 at concrete raw tokens 8, 9, 10 and 11. -/
theorem from_raw_token_total_and_trap_witness :
    (8 : Nat) % 4 = 0
    ∧ TokenType.from_raw_token 8 = some (TokenType.Listener 2)
    ∧ (9 : Nat) % 4 = 1
    ∧ TokenType.from_raw_token 9 = some (TokenType.Incoming 2)
    ∧ (10 : Nat) % 4 = 2
    ∧ TokenType.from_raw_token 10 = some (TokenType.Outgoing 2)
    ∧ (TokenType.from_raw_token 11 = none ↔ (11 : Nat) % 4 = 3) :=
  ⟨by norm_num, from_raw_token_total_and_trap.1 8 (by norm_num),
   by norm_num, from_raw_token_total_and_trap.2.1 9 (by norm_num),
   by norm_num, from_raw_token_total_and_trap.2.2.1 10 (by norm_num),
   from_raw_token_total_and_trap.2.2.2.1 11⟩

/-- `tick` never changes either endpoint's `error` or `hup` flag: the
two passes clear only `readable` and `writable`, and the drains do not
touch readiness at all. -/
theorem tick_preserves_closed_flags (rf rb : ReadResult)
    (wf wb : WriteResult) (c : Connection) :
    (Connection.tick rf rb wf wb c).2.front.state.error
      = c.front.state.error
    ∧ (Connection.tick rf rb wf wb c).2.front.state.hup
      = c.front.state.hup
    ∧ (Connection.tick rf rb wf wb c).2.back.state.error
      = c.back.state.error
    ∧ (Connection.tick rf rb wf wb c).2.back.state.hup
      = c.back.state.hup := by
  refine ⟨?_, ?_, ?_, ?_⟩
  · rw [tick_front_eq]
    split
    · rw [pipe_state, tickMark_error]
    · show (EndPoint.tickMark rf c.front).2.state.error = _
      rw [tickMark_error]
  · rw [tick_front_eq]
    split
    · rw [pipe_state, tickMark_hup]
    · show (EndPoint.tickMark rf c.front).2.state.hup = _
      rw [tickMark_hup]
  · rw [tick_back_eq]
    split
    · rw [pipe_state, tickMark_error]
    · show (EndPoint.tickMark rb c.back).2.state.error = _
      rw [tickMark_error]
  · rw [tick_back_eq]
    split
    · rw [pipe_state, tickMark_hup]
    · show (EndPoint.tickMark rb c.back).2.state.hup = _
      rw [tickMark_hup]

/-- Each connection operation keeps a true closed predicate true:
merges only OR flags in, and `tick` clears only `readable` and
`writable`. -/
theorem applyConnOp_closed (op : ConnOp) (c : Connection) :
    (Connection.is_outgoing_closed c = true →
      Connection.is_outgoing_closed (applyConnOp op c) = true)
    ∧ (Connection.is_incoming_closed c = true →
      Connection.is_incoming_closed (applyConnOp op c) = true) := by
  cases op with
  | opIncomingReady e =>
    constructor
    · intro h
      exact h
    · intro h
      show ((c.front.state.insert e).error || (c.front.state.insert e).hup)
        = true
      simp only [Connection.is_incoming_closed, Bool.or_eq_true] at h
      simp only [Ready.insert, Bool.or_eq_true]
      tauto
  | opOutgoingReady e =>
    constructor
    · intro h
      show ((c.back.state.insert e).error || (c.back.state.insert e).hup)
        = true
      simp only [Connection.is_outgoing_closed, Bool.or_eq_true] at h
      simp only [Ready.insert, Bool.or_eq_true]
      tauto
    · intro h
      exact h
  | opTick rf rb wf wb =>
    have h4 := tick_preserves_closed_flags rf rb wf wb c
    constructor
    · intro h
      show ((Connection.tick rf rb wf wb c).2.back.state.error
        || (Connection.tick rf rb wf wb c).2.back.state.hup) = true
      rw [h4.2.2.1, h4.2.2.2]
      exact h
    · intro h
      show ((Connection.tick rf rb wf wb c).2.front.state.error
        || (Connection.tick rf rb wf wb c).2.front.state.hup) = true
      rw [h4.1, h4.2.1]
      exact h

/-- A true closed predicate stays true along any sequence of merges and
ticks. -/
theorem applyConnOps_closed (ops : List ConnOp) (c : Connection) :
    (Connection.is_outgoing_closed c = true →
      Connection.is_outgoing_closed (applyConnOps ops c) = true)
    ∧ (Connection.is_incoming_closed c = true →
      Connection.is_incoming_closed (applyConnOps ops c) = true) := by
  induction ops generalizing c with
  | nil => exact ⟨fun h => h, fun h => h⟩
  | cons op rest ih =>
    exact ⟨fun h => (ih (applyConnOp op c)).1 ((applyConnOp_closed op c).1 h),
      fun h => (ih (applyConnOp op c)).2 ((applyConnOp_closed op c).2 h)⟩

/-- C10: closed detection and persistence.  `is_outgoing_closed` /
`is_incoming_closed` hold exactly when the respective endpoint's
accumulated readiness includes `error` or `hup`; merging a readiness
set containing `hup` on Back makes `is_outgoing_closed` true even if
`readable`/`writable` were never set; and since merges only OR flags in
and `tick` removes only `readable` and `writable`, a true closed
predicate remains true after every further sequence of merges and
ticks. -/
theorem closed_detection_and_persistence :
    (∀ c : Connection, Connection.is_outgoing_closed c
        = (c.back.state.error || c.back.state.hup))
    ∧ (∀ c : Connection, Connection.is_incoming_closed c
        = (c.front.state.error || c.front.state.hup))
    ∧ (∀ (c : Connection) (e : Ready), e.hup = true →
        Connection.is_outgoing_closed (Connection.outgoing_ready e c) = true)
    ∧ (∀ (c : Connection) (ops : List ConnOp),
        Connection.is_outgoing_closed c = true →
        Connection.is_outgoing_closed (applyConnOps ops c) = true)
    ∧ (∀ (c : Connection) (ops : List ConnOp),
        Connection.is_incoming_closed c = true →
        Connection.is_incoming_closed (applyConnOps ops c) = true) := by
  refine ⟨fun c => rfl, fun c => rfl, ?_, ?_, ?_⟩
  · intro c e he
    show ((c.back.state.insert e).error || (c.back.state.insert e).hup) = true
    simp [Ready.insert, he]
  · intro c ops h
    exact (applyConnOps_closed ops c).1 h
  · intro c ops h
    exact (applyConnOps_closed ops c).2 h

/-- Witness for C10: a hup-only merge on Back of a fresh connection
closes it, and the closed predicates survive a concrete trace of merges
and a tick. -/
theorem closed_detection_and_persistence_witness :
    Ready.hupOnly.hup = true
    ∧ Connection.is_outgoing_closed
        (Connection.outgoing_ready Ready.hupOnly exampleConn) = true
    ∧ (Connection.is_outgoing_closed
        (Connection.outgoing_ready Ready.hupOnly exampleConn) = true
      ∧ Connection.is_outgoing_closed (applyConnOps exampleConnOps
        (Connection.outgoing_ready Ready.hupOnly exampleConn)) = true)
    ∧ (Connection.is_incoming_closed
        (Connection.incoming_ready Ready.hupOnly exampleConn) = true
      ∧ Connection.is_incoming_closed (applyConnOps exampleConnOps
        (Connection.incoming_ready Ready.hupOnly exampleConn)) = true) :=
  ⟨rfl,
   closed_detection_and_persistence.2.2.1 exampleConn Ready.hupOnly rfl,
   ⟨by decide,
    closed_detection_and_persistence.2.2.2.1
      (Connection.outgoing_ready Ready.hupOnly exampleConn) exampleConnOps
      (by decide)⟩,
   ⟨by decide,
    closed_detection_and_persistence.2.2.2.2
      (Connection.incoming_ready Ready.hupOnly exampleConn) exampleConnOps
      (by decide)⟩⟩

end LoadBalancer
